import Mathlib

/-!
Shallow embedding of the ERP backend (src/main.py, src/schemas.py).

The document store holds one list of documents per collection; a document
is a store-assigned numeric identifier `_id` together with the validated
entity record.  Python `float` quantities (quantity, on_hand, reserved,
price, cost, ...) are modelled as rationals, `datetime.utcnow()` as a
`now : Nat` clock carried in the store state, and the global `db` handle
as a `dbConfigured : Bool` flag.  Each FastAPI route handler becomes a
function `Store → input → Except HTTPException output × Store`; raising
`HTTPException` is the `Except.error` case, and the returned store is the
state after whatever writes happened before the raise.
-/

namespace ERP

/-- HTTPException from fastapi: a status code and a detail string. -/
structure HTTPException where
  status : Nat
  detail : String
deriving DecidableEq, Repr

/-- Enum for InventoryTransaction.type: Literal["in", "out", "transfer", "adjustment"]
(src/schemas.py line 71).  Constructor names are prefixed with `t` because `in`
is a Lean keyword; `str` recovers the Python literal. -/
inductive TxnType
  | tin | tout | ttransfer | tadjustment
deriving DecidableEq, Repr

/-- The Python string literal of a TxnType value. -/
def TxnType.str : TxnType → String
  | .tin => "in"
  | .tout => "out"
  | .ttransfer => "transfer"
  | .tadjustment => "adjustment"

/-- Enum for Tax.type (src/schemas.py line 52). -/
inductive TaxKind
  | vat | gst | sales | withholding | other
deriving DecidableEq, Repr

/-- Enum for SalesOrder.status (src/schemas.py line 101). -/
inductive SOStatus
  | draft | confirmed | delivered | invoiced | closed
deriving DecidableEq, Repr

/-- The Python string literal of a SOStatus value. -/
def SOStatus.str : SOStatus → String
  | .draft => "draft"
  | .confirmed => "confirmed"
  | .delivered => "delivered"
  | .invoiced => "invoiced"
  | .closed => "closed"

/-- Enum for Invoice.type (src/schemas.py line 127). -/
inductive InvoiceKind
  | sales | purchase
deriving DecidableEq, Repr

/-- Enum for Invoice.status (src/schemas.py line 132). -/
inductive InvoiceStatus
  | draft | posted | paid | cancelled
deriving DecidableEq, Repr

/-- Enum for Payment.type (src/schemas.py line 136). -/
inductive PaymentKind
  | inbound | outbound
deriving DecidableEq, Repr

/-- Product schema (src/schemas.py lines 56-64). -/
structure Product where
  sku : String
  name : String
  description : Option String := none
  uom : String := "unit"
  price : ℚ := 0
  cost : ℚ := 0
  tax_code : Option String := none
  is_active : Bool := true
deriving DecidableEq, Repr

/-- Pydantic field constraints of Product: price ≥ 0 and cost ≥ 0
(Field(0, ge=0) on both). -/
def Product.fieldConstraintsOk (p : Product) : Bool :=
  decide (0 ≤ p.price) && decide (0 ≤ p.cost)

/-- Customer schema (src/schemas.py lines 31-39). -/
structure Customer where
  name : String
  email : Option String := none
  phone : Option String := none
  billing_address : Option String := none
  shipping_address : Option String := none
  tax_id : Option String := none
  credit_limit : ℚ := 0
  is_active : Bool := true
deriving DecidableEq, Repr

/-- Supplier schema (src/schemas.py lines 41-47). -/
structure Supplier where
  name : String
  email : Option String := none
  phone : Option String := none
  address : Option String := none
  tax_id : Option String := none
  is_active : Bool := true
deriving DecidableEq, Repr

/-- Tax schema (src/schemas.py lines 49-54). -/
structure Tax where
  name : String
  rate : ℚ := 0
  type : TaxKind := .vat
  is_inclusive : Bool := false
  is_active : Bool := true
deriving DecidableEq, Repr

/-- Pydantic field constraint of Tax: rate ≥ 0 (Field(0, ge=0)). -/
def Tax.fieldConstraintsOk (t : Tax) : Bool :=
  decide (0 ≤ t.rate)

/-- Warehouse schema (src/schemas.py lines 25-29). -/
structure Warehouse where
  name : String
  code : String
  address : Option String := none
  is_active : Bool := true
deriving DecidableEq, Repr

/-- InventoryTransaction schema (src/schemas.py lines 70-76). -/
structure InventoryTransaction where
  type : TxnType
  product_sku : String
  quantity : ℚ
  warehouse_code : String
  reference : Option String := none
  notes : Option String := none
deriving DecidableEq, Repr

/-- Pydantic field constraints of InventoryTransaction: the schema declares
`quantity: float` with no Field bound, so every typed payload passes. -/
def InventoryTransaction.fieldConstraintsOk (_ : InventoryTransaction) : Bool :=
  true

/-- A stocklevel document as written by record_inventory_txn
(src/main.py lines 215-224): schema fields plus created_at/updated_at. -/
structure StockLevelDoc where
  product_sku : String
  warehouse_code : String
  on_hand : ℚ
  reserved : ℚ
  created_at : Nat
  updated_at : Nat
deriving DecidableEq, Repr

/-- SalesOrderItem schema (src/schemas.py lines 88-92). -/
structure SalesOrderItem where
  product_sku : String
  quantity : ℚ
  price : ℚ
  tax_rate : ℚ := 0
deriving DecidableEq, Repr

/-- SalesOrder schema (src/schemas.py lines 94-101). -/
structure SalesOrder where
  number : String
  customer_id : String
  order_date : Nat
  currency : String := "USD"
  items : List SalesOrderItem
  notes : Option String := none
  status : SOStatus := .draft
deriving DecidableEq, Repr

/-- InvoiceLine schema (src/schemas.py lines 118-123). -/
structure InvoiceLine where
  product_sku : String
  description : Option String := none
  quantity : ℚ
  unit_price : ℚ
  tax_rate : ℚ := 0
deriving DecidableEq, Repr

/-- Invoice schema (src/schemas.py lines 125-132). -/
structure Invoice where
  number : String
  type : InvoiceKind
  partner_id : String
  invoice_date : Nat
  currency : String := "USD"
  lines : List InvoiceLine
  status : InvoiceStatus := .draft
deriving DecidableEq, Repr

/-- Payment schema (src/schemas.py lines 134-142). -/
structure Payment where
  number : String
  type : PaymentKind
  partner_id : String
  date : Nat
  currency : String := "USD"
  amount : ℚ
  method : String := "cash"
  reference : Option String := none
deriving DecidableEq, Repr

/-- A stored document: the store-assigned identifier together with the record. -/
structure Doc (α : Type) where
  _id : Nat
  data : α
deriving DecidableEq, Repr

/-- A listed document as returned by the GET endpoints: the record tagged with
its identifier rendered as a string (`d["id"] = str(d.pop("_id"))`). -/
structure Tagged (α : Type) where
  id : String
  data : α
deriving DecidableEq, Repr

/-- The document store state: the `db` handle (configured or not), one list per
collection used by the endpoints, the next identifier the store will assign,
and the current wall clock read by `datetime.utcnow()`. -/
structure Store where
  dbConfigured : Bool
  product : List (Doc Product)
  customer : List (Doc Customer)
  supplier : List (Doc Supplier)
  tax : List (Doc Tax)
  warehouse : List (Doc Warehouse)
  inventorytransaction : List (Doc InventoryTransaction)
  stocklevel : List (Doc StockLevelDoc)
  salesorder : List (Doc SalesOrder)
  invoice : List (Doc Invoice)
  payment : List (Doc Payment)
  nextId : Nat
  now : Nat
deriving DecidableEq, Repr

/-- The server error raised when the store is unavailable
(src/main.py line 89 and, for the access layer, spec section 7). -/
def dbError : HTTPException :=
  { status := 500, detail := "Database not configured" }

/-- ensure_db (src/main.py lines 87-89): raise 500 "Database not configured"
when the db handle is missing. -/
def ensure_db (s : Store) : Except HTTPException Unit :=
  if s.dbConfigured then Except.ok () else Except.error dbError

/-- Modelled from the spec: `create_document` lives in database.py, which is
not under src/.  Spec section 4.2 describes it as the generic access-layer
operation `create(collection, record) -> id` (insert one validated record,
return its generated identifier), and section 7 requires a store-unavailable
request to fail with the server error rather than insert.  `ins` appends the
new document, with the assigned identifier, to its collection. -/
def create_document (s : Store) (ins : Nat → Store → Store) :
    Except HTTPException Nat × Store :=
  if s.dbConfigured then
    (Except.ok s.nextId, { ins s.nextId s with nextId := s.nextId + 1 })
  else
    (Except.error dbError, s)

/-- Modelled from the spec: `get_documents` lives in database.py, which is not
under src/.  Spec section 4.2 describes it as `list(collection) -> sequence of
records` (all documents of the collection, each with its identifier), and
section 7 requires the store-unavailable server error otherwise.  `docs` is
the collection read from the store. -/
def get_documents {α : Type} (s : Store) (docs : List (Doc α)) :
    Except HTTPException (List (Doc α)) :=
  if s.dbConfigured then Except.ok docs else Except.error dbError

/-- The id-tagging loop shared by every list endpoint:
`for d in docs: d["id"] = str(d.pop("_id"))`. -/
def tagDocs {α : Type} (ds : List (Doc α)) : List (Tagged α) :=
  ds.map (fun d => { id := toString d._id, data := d.data })

/-- create_product (src/main.py lines 101-108): reject a duplicate sku with
400 "SKU already exists", else insert and echo the id with the fields. -/
def create_product (s : Store) (payload : Product) :
    Except HTTPException (Nat × Product) × Store :=
  match ensure_db s with
  | Except.error e => (Except.error e, s)
  | Except.ok _ =>
    if (s.product.find? (fun d => d.data.sku == payload.sku)).isSome then
      (Except.error { status := 400, detail := "SKU already exists" }, s)
    else
      match create_document s
        (fun i st => { st with product := st.product ++ [{ _id := i, data := payload }] }) with
      | (Except.ok i, s1) => (Except.ok (i, payload), s1)
      | (Except.error e, s1) => (Except.error e, s1)

/-- list_products (src/main.py lines 111-116). -/
def list_products (s : Store) :
    Except HTTPException (List (Tagged Product)) × Store :=
  match get_documents s s.product with
  | Except.ok ds => (Except.ok (tagDocs ds), s)
  | Except.error e => (Except.error e, s)

/-- create_customer (src/main.py lines 119-122): no uniqueness check, straight
insert through the access layer. -/
def create_customer (s : Store) (payload : Customer) :
    Except HTTPException Nat × Store :=
  create_document s
    (fun i st => { st with customer := st.customer ++ [{ _id := i, data := payload }] })

/-- list_customers (src/main.py lines 125-130). -/
def list_customers (s : Store) :
    Except HTTPException (List (Tagged Customer)) × Store :=
  match get_documents s s.customer with
  | Except.ok ds => (Except.ok (tagDocs ds), s)
  | Except.error e => (Except.error e, s)

/-- create_supplier (src/main.py lines 133-136). -/
def create_supplier (s : Store) (payload : Supplier) :
    Except HTTPException Nat × Store :=
  create_document s
    (fun i st => { st with supplier := st.supplier ++ [{ _id := i, data := payload }] })

/-- list_suppliers (src/main.py lines 139-144). -/
def list_suppliers (s : Store) :
    Except HTTPException (List (Tagged Supplier)) × Store :=
  match get_documents s s.supplier with
  | Except.ok ds => (Except.ok (tagDocs ds), s)
  | Except.error e => (Except.error e, s)

/-- create_tax (src/main.py lines 147-150). -/
def create_tax (s : Store) (payload : Tax) :
    Except HTTPException Nat × Store :=
  create_document s
    (fun i st => { st with tax := st.tax ++ [{ _id := i, data := payload }] })

/-- list_taxes (src/main.py lines 153-158). -/
def list_taxes (s : Store) :
    Except HTTPException (List (Tagged Tax)) × Store :=
  match get_documents s s.tax with
  | Except.ok ds => (Except.ok (tagDocs ds), s)
  | Except.error e => (Except.error e, s)

/-- create_warehouse (src/main.py lines 161-167): reject a duplicate code with
400 "Warehouse code already exists", else insert. -/
def create_warehouse (s : Store) (payload : Warehouse) :
    Except HTTPException Nat × Store :=
  match ensure_db s with
  | Except.error e => (Except.error e, s)
  | Except.ok _ =>
    if (s.warehouse.find? (fun d => d.data.code == payload.code)).isSome then
      (Except.error { status := 400, detail := "Warehouse code already exists" }, s)
    else
      create_document s
        (fun i st => { st with warehouse := st.warehouse ++ [{ _id := i, data := payload }] })

/-- list_warehouses (src/main.py lines 170-175). -/
def list_warehouses (s : Store) :
    Except HTTPException (List (Tagged Warehouse)) × Store :=
  match get_documents s s.warehouse with
  | Except.ok ds => (Except.ok (tagDocs ds), s)
  | Except.error e => (Except.error e, s)

/-- The response of POST /inventory/transactions
(src/main.py line 226): the transaction id and the applied signed change. -/
structure TxnResponse where
  id : Nat
  applied_change : ℚ
deriving DecidableEq, Repr

/-- The stocklevel find_one filter of record_inventory_txn
(src/main.py lines 193-196): match on product_sku and warehouse_code. -/
def pairMatch (sku wh : String) (d : Doc StockLevelDoc) : Bool :=
  d.data.product_sku == sku && d.data.warehouse_code == wh

/-- The stocklevel lookup filter for a transaction payload. -/
def stockMatch (t : InventoryTransaction) (d : Doc StockLevelDoc) : Bool :=
  pairMatch t.product_sku t.warehouse_code d

/-- The signed quantity change of record_inventory_txn
(src/main.py lines 197-206), following the if/elif chain on the type string. -/
def signedChange (t : TxnType) (q : ℚ) : ℚ :=
  if t.str = "in" then q
  else if t.str = "out" then -q
  else if t.str = "adjustment" then q
  else 0

/-- Mongo update_one: rewrite the first document matching the filter, leave
the rest alone. -/
def update_one {α : Type} (p : α → Bool) (g : α → α) : List α → List α
  | [] => []
  | d :: ds => if p d then g d :: ds else d :: update_one p g ds

/-- The stock-level upsert of record_inventory_txn (src/main.py lines 208-224):
if a stocklevel for the pair exists, set on_hand to the found value plus the
change and refresh updated_at; else insert a fresh stocklevel document with
on_hand = change and reserved = 0. -/
def applyStockUpdate (s : Store) (t : InventoryTransaction) (change : ℚ) : Store :=
  match s.stocklevel.find? (stockMatch t) with
  | some lvl =>
      { s with stocklevel :=
          (update_one (fun d => d._id == lvl._id)
            (fun d => { d with data :=
              { d.data with on_hand := lvl.data.on_hand + change, updated_at := s.now } })
            s.stocklevel) }
  | none =>
      { s with
          stocklevel := s.stocklevel ++
            [{ _id := s.nextId, data :=
                { product_sku := t.product_sku, warehouse_code := t.warehouse_code,
                  on_hand := change, reserved := 0,
                  created_at := s.now, updated_at := s.now } }],
          nextId := s.nextId + 1 }

/-- record_inventory_txn (src/main.py lines 186-226): insert the transaction
document, compute the signed change, upsert the stocklevel for the pair, and
answer with the transaction id and the applied change. -/
def record_inventory_txn (s : Store) (txn : InventoryTransaction) :
    Except HTTPException TxnResponse × Store :=
  match create_document s
      (fun i st => { st with inventorytransaction :=
        st.inventorytransaction ++ [{ _id := i, data := txn }] }) with
  | (Except.error e, s1) => (Except.error e, s1)
  | (Except.ok txn_id, s1) =>
    match ensure_db s1 with
    | Except.error e => (Except.error e, s1)
    | Except.ok _ =>
      let change := signedChange txn.type txn.quantity
      (Except.ok { id := txn_id, applied_change := change },
       applyStockUpdate s1 txn change)

/-- list_stock_levels (src/main.py lines 229-234). -/
def list_stock_levels (s : Store) :
    Except HTTPException (List (Tagged StockLevelDoc)) × Store :=
  match get_documents s s.stocklevel with
  | Except.ok ds => (Except.ok (tagDocs ds), s)
  | Except.error e => (Except.error e, s)

/-- create_sales_order (src/main.py lines 241-247): reject a duplicate number
with 400 "Order number already exists", else insert. -/
def create_sales_order (s : Store) (order : SalesOrder) :
    Except HTTPException Nat × Store :=
  match ensure_db s with
  | Except.error e => (Except.error e, s)
  | Except.ok _ =>
    if (s.salesorder.find? (fun d => d.data.number == order.number)).isSome then
      (Except.error { status := 400, detail := "Order number already exists" }, s)
    else
      create_document s
        (fun i st => { st with salesorder := st.salesorder ++ [{ _id := i, data := order }] })

/-- list_sales_orders (src/main.py lines 250-255). -/
def list_sales_orders (s : Store) :
    Except HTTPException (List (Tagged SalesOrder)) × Store :=
  match get_documents s s.salesorder with
  | Except.ok ds => (Except.ok (tagDocs ds), s)
  | Except.error e => (Except.error e, s)

/-- create_invoice (src/main.py lines 262-267): reject a duplicate number with
400 "Invoice number already exists", else insert. -/
def create_invoice (s : Store) (inv : Invoice) :
    Except HTTPException Nat × Store :=
  match ensure_db s with
  | Except.error e => (Except.error e, s)
  | Except.ok _ =>
    if (s.invoice.find? (fun d => d.data.number == inv.number)).isSome then
      (Except.error { status := 400, detail := "Invoice number already exists" }, s)
    else
      create_document s
        (fun i st => { st with invoice := st.invoice ++ [{ _id := i, data := inv }] })

/-- list_invoices (src/main.py lines 270-275). -/
def list_invoices (s : Store) :
    Except HTTPException (List (Tagged Invoice)) × Store :=
  match get_documents s s.invoice with
  | Except.ok ds => (Except.ok (tagDocs ds), s)
  | Except.error e => (Except.error e, s)

/-- create_payment (src/main.py lines 278-283): reject a duplicate number with
400 "Payment number already exists", else insert. -/
def create_payment (s : Store) (pay : Payment) :
    Except HTTPException Nat × Store :=
  match ensure_db s with
  | Except.error e => (Except.error e, s)
  | Except.ok _ =>
    if (s.payment.find? (fun d => d.data.number == pay.number)).isSome then
      (Except.error { status := 400, detail := "Payment number already exists" }, s)
    else
      create_document s
        (fun i st => { st with payment := st.payment ++ [{ _id := i, data := pay }] })

/-- list_payments (src/main.py lines 286-291). -/
def list_payments (s : Store) :
    Except HTTPException (List (Tagged Payment)) × Store :=
  match get_documents s s.payment with
  | Except.ok ds => (Except.ok (tagDocs ds), s)
  | Except.error e => (Except.error e, s)

/-- The totals object of GET /dashboard (src/main.py lines 301-309). -/
structure DashboardTotals where
  products : Nat
  customers : Nat
  suppliers : Nat
  open_sales_orders : Nat
  invoices : Nat
  payments : Nat
  stock_items : Nat
deriving DecidableEq, Repr

/-- The response of GET /dashboard (src/main.py line 314). -/
structure DashboardResponse where
  totals : DashboardTotals
  low_stock : List (Tagged StockLevelDoc)
deriving DecidableEq, Repr

/-- The Mongo status filter of the open_sales_orders count
(src/main.py line 305): status in ["draft", "confirmed"]. -/
def openStatus (d : Doc SalesOrder) : Bool :=
  d.data.status.str == "draft" || d.data.status.str == "confirmed"

/-- dashboard_summary (src/main.py lines 298-314): per-collection document
counts, the open sales order count, and up to 10 stocklevels with
on_hand ≤ 0, each tagged with its string id. -/
def dashboard_summary (s : Store) :
    Except HTTPException DashboardResponse × Store :=
  match ensure_db s with
  | Except.error e => (Except.error e, s)
  | Except.ok _ =>
    let totals : DashboardTotals :=
      { products := s.product.length
        customers := s.customer.length
        suppliers := s.supplier.length
        open_sales_orders := (s.salesorder.filter openStatus).length
        invoices := s.invoice.length
        payments := s.payment.length
        stock_items := s.stocklevel.length }
    let low_stock :=
      (s.stocklevel.filter (fun d => decide (d.data.on_hand ≤ 0))).take 10
    (Except.ok { totals := totals, low_stock := tagDocs low_stock }, s)

/-- Read off the on_hand of the first stocklevel document for a
(product sku, warehouse code) pair, the way find_one reads it. -/
def lookupOnHand (s : Store) (sku wh : String) : Option ℚ :=
  (s.stocklevel.find? (pairMatch sku wh)).map (fun d => d.data.on_hand)

/-- An empty, configured store. -/
def emptyStore : Store :=
  { dbConfigured := true, product := [], customer := [], supplier := [],
    tax := [], warehouse := [], inventorytransaction := [], stocklevel := [],
    salesorder := [], invoice := [], payment := [], nextId := 0, now := 0 }

/-!  Helper lemmas about find? and update_one.  -/

theorem find?_append_none {α : Type} (p : α → Bool) :
    ∀ (l₁ l₂ : List α), l₁.find? p = none → (l₁ ++ l₂).find? p = l₂.find? p := by
  intro l₁ l₂ h
  induction l₁ with
  | nil => rfl
  | cons d t ih =>
    simp only [List.cons_append, List.find?_cons] at h ⊢
    cases hd : p d with
    | true => simp [hd] at h
    | false =>
      simp only [hd] at h ⊢
      exact ih h

theorem find?_middle {α : Type} (p : α → Bool) (a : α) :
    ∀ (l₁ l₂ : List α), (∀ b ∈ l₁, p b = false) → p a = true →
      (l₁ ++ a :: l₂).find? p = some a := by
  intro l₁ l₂ hfalse ha
  induction l₁ with
  | nil => simp [List.find?_cons, ha]
  | cons d t ih =>
    have hd : p d = false := hfalse d (by simp)
    simp only [List.cons_append, List.find?_cons, hd]
    exact ih (fun b hb => hfalse b (by simp [hb]))

theorem update_one_split {α : Type} (p q : α → Bool) (g : α → α) :
    ∀ (l : List α) (a : α), l.find? p = some a →
      (∀ b ∈ l, q b = true → b = a) → q a = true →
      ∃ l₁ l₂, l = l₁ ++ a :: l₂ ∧ update_one q g l = l₁ ++ g a :: l₂ ∧
        ∀ b ∈ l₁, p b = false := by
  intro l
  induction l with
  | nil => intro a h; simp at h
  | cons d t ih =>
    intro a hfind huniq hqa
    cases hd : p d with
    | true =>
      have had : d = a := by
        simp only [List.find?_cons, hd] at hfind
        exact Option.some.inj hfind
      subst had
      refine ⟨[], t, by simp, ?_, by simp⟩
      simp [update_one, hqa]
    | false =>
      have hfind' : t.find? p = some a := by
        simpa only [List.find?_cons, hd] using hfind
      have hat : a ∈ t := List.mem_of_find?_eq_some hfind'
      have hqd : q d = false := by
        cases hqd : q d with
        | false => rfl
        | true =>
          have hda : d = a := huniq d (by simp) hqd
          have hpa : p a = true := List.find?_some hfind'
          rw [hda] at hd
          rw [hd] at hpa
          exact absurd hpa (by simp)
      obtain ⟨l₁, l₂, heq, hupd, hfalse⟩ :=
        ih a hfind' (fun b hb => huniq b (by simp [hb])) hqa
      refine ⟨d :: l₁, l₂, by simp [heq], ?_, ?_⟩
      · simp [update_one, hqd, hupd]
      · intro b hb
        rcases List.mem_cons.mp hb with hb | hb
        · rw [hb]; exact hd
        · exact hfalse b hb

theorem find?_update_one {α : Type} (p q : α → Bool) (g : α → α) (l : List α) (a : α)
    (hfind : l.find? p = some a) (huniq : ∀ b ∈ l, q b = true → b = a)
    (hqa : q a = true) (hpga : p (g a) = true) :
    (update_one q g l).find? p = some (g a) := by
  obtain ⟨l₁, l₂, _, hupd, hfalse⟩ := update_one_split p q g l a hfind huniq hqa
  rw [hupd]
  exact find?_middle p (g a) l₁ l₂ hfalse hpga

theorem map_update_one {α β : Type} (p q : α → Bool) (g : α → α) (f : α → β)
    (l : List α) (a : α)
    (hfind : l.find? p = some a) (huniq : ∀ b ∈ l, q b = true → b = a)
    (hqa : q a = true) (hfga : f (g a) = f a) :
    (update_one q g l).map f = l.map f := by
  obtain ⟨l₁, l₂, heq, hupd, _⟩ := update_one_split p q g l a hfind huniq hqa
  rw [hupd, heq]
  simp [hfga]

theorem beq_id_uniq {α : Type} (l : List (Doc α)) (a : Doc α)
    (hids : (l.map (fun d => d._id)).Nodup) (ha : a ∈ l) :
    ∀ b ∈ l, (b._id == a._id) = true → b = a := by
  intro b hb hbeq
  have hinj := List.inj_on_of_nodup_map hids
  exact hinj hb ha (by simpa using hbeq)

/-!  Unfolding lemmas for the inventory endpoint.  -/

theorem applyStockUpdate_dbConfigured (s : Store) (t : InventoryTransaction) (c : ℚ) :
    (applyStockUpdate s t c).dbConfigured = s.dbConfigured := by
  unfold applyStockUpdate
  cases s.stocklevel.find? (stockMatch t) <;> rfl

theorem applyStockUpdate_now (s : Store) (t : InventoryTransaction) (c : ℚ) :
    (applyStockUpdate s t c).now = s.now := by
  unfold applyStockUpdate
  cases s.stocklevel.find? (stockMatch t) <;> rfl

theorem applyStockUpdate_txns (s : Store) (t : InventoryTransaction) (c : ℚ) :
    (applyStockUpdate s t c).inventorytransaction = s.inventorytransaction := by
  unfold applyStockUpdate
  cases s.stocklevel.find? (stockMatch t) <;> rfl

theorem record_ok (s : Store) (t : InventoryTransaction) (hdb : s.dbConfigured = true) :
    record_inventory_txn s t =
      (Except.ok { id := s.nextId, applied_change := signedChange t.type t.quantity },
       applyStockUpdate
         { s with
             inventorytransaction :=
               s.inventorytransaction ++ [{ _id := s.nextId, data := t }],
             nextId := s.nextId + 1 }
         t (signedChange t.type t.quantity)) := by
  unfold record_inventory_txn create_document ensure_db
  simp [hdb]

theorem applyStockUpdate_found (s : Store) (t : InventoryTransaction) (c : ℚ)
    (lvl : Doc StockLevelDoc)
    (hfind : s.stocklevel.find? (stockMatch t) = some lvl)
    (hids : (s.stocklevel.map (fun d => d._id)).Nodup) :
    (applyStockUpdate s t c).stocklevel.find? (stockMatch t) =
      some { _id := lvl._id, data :=
        { lvl.data with on_hand := lvl.data.on_hand + c, updated_at := s.now } } := by
  have huniq := beq_id_uniq s.stocklevel lvl hids (List.mem_of_find?_eq_some hfind)
  have hpl : stockMatch t lvl = true := List.find?_some hfind
  unfold applyStockUpdate
  rw [hfind]
  exact find?_update_one (stockMatch t) (fun d => d._id == lvl._id)
    (fun d => { d with data :=
      { d.data with on_hand := lvl.data.on_hand + c, updated_at := s.now } })
    s.stocklevel lvl hfind huniq (by simp) (by simpa [stockMatch, pairMatch] using hpl)

theorem applyStockUpdate_found_map {β : Type} (s : Store) (t : InventoryTransaction)
    (c : ℚ) (lvl : Doc StockLevelDoc) (f : Doc StockLevelDoc → β)
    (hfind : s.stocklevel.find? (stockMatch t) = some lvl)
    (hids : (s.stocklevel.map (fun d => d._id)).Nodup)
    (hf : f { _id := lvl._id, data :=
        { lvl.data with on_hand := lvl.data.on_hand + c, updated_at := s.now } } = f lvl) :
    (applyStockUpdate s t c).stocklevel.map f = s.stocklevel.map f := by
  have huniq := beq_id_uniq s.stocklevel lvl hids (List.mem_of_find?_eq_some hfind)
  unfold applyStockUpdate
  rw [hfind]
  exact map_update_one (stockMatch t) (fun d => d._id == lvl._id)
    (fun d => { d with data :=
      { d.data with on_hand := lvl.data.on_hand + c, updated_at := s.now } })
    f s.stocklevel lvl hfind huniq (by simp) hf

theorem applyStockUpdate_none (s : Store) (t : InventoryTransaction) (c : ℚ)
    (hfind : s.stocklevel.find? (stockMatch t) = none) :
    applyStockUpdate s t c =
      { s with
          stocklevel := s.stocklevel ++
            [{ _id := s.nextId, data :=
                { product_sku := t.product_sku, warehouse_code := t.warehouse_code,
                  on_hand := c, reserved := 0,
                  created_at := s.now, updated_at := s.now } }],
          nextId := s.nextId + 1 } := by
  unfold applyStockUpdate
  rw [hfind]

theorem signedChange_tin (q : ℚ) : signedChange TxnType.tin q = q := by
  simp [signedChange, TxnType.str]

theorem signedChange_tout (q : ℚ) : signedChange TxnType.tout q = -q := by
  simp [signedChange, TxnType.str]

theorem signedChange_tadjustment (q : ℚ) : signedChange TxnType.tadjustment q = q := by
  simp [signedChange, TxnType.str]

theorem signedChange_ttransfer (q : ℚ) : signedChange TxnType.ttransfer q = 0 := by
  simp [signedChange, TxnType.str]

/-- The on_hand read back after a found-case stock update is the old value
plus the change. -/
theorem lookupOnHand_record_found (s : Store) (t : InventoryTransaction)
    (lvl : Doc StockLevelDoc)
    (hdb : s.dbConfigured = true)
    (hfind : s.stocklevel.find? (stockMatch t) = some lvl)
    (hids : (s.stocklevel.map (fun d => d._id)).Nodup) :
    lookupOnHand (record_inventory_txn s t).2 t.product_sku t.warehouse_code =
      some (lvl.data.on_hand + signedChange t.type t.quantity) := by
  rw [record_ok s t hdb]
  have h := applyStockUpdate_found
    { s with
        inventorytransaction :=
          s.inventorytransaction ++ [{ _id := s.nextId, data := t }],
        nextId := s.nextId + 1 }
    t (signedChange t.type t.quantity) lvl hfind hids
  unfold lookupOnHand
  have hpair : pairMatch t.product_sku t.warehouse_code = stockMatch t := rfl
  rw [hpair]
  simp only at h
  rw [h]
  rfl

/-- C2: for every valid inventory transaction the applied signed change is
+quantity for type in, -quantity for type out, the signed quantity itself for
type adjustment and 0 for type transfer; the response carries the transaction
id and this change, and an adjustment moves on_hand by exactly its signed
quantity, so a negative adjustment decreases on_hand and a positive one
increases it. -/
theorem C2_applied_change (s : Store) (t : InventoryTransaction) (q : ℚ)
    (hdb : s.dbConfigured = true) :
    (record_inventory_txn s t).1 =
      Except.ok { id := s.nextId, applied_change := signedChange t.type t.quantity }
    ∧ signedChange TxnType.tin q = q
    ∧ signedChange TxnType.tout q = -q
    ∧ signedChange TxnType.tadjustment q = q
    ∧ signedChange TxnType.ttransfer q = 0
    ∧ (∀ lvl, t.type = TxnType.tadjustment →
        s.stocklevel.find? (stockMatch t) = some lvl →
        (s.stocklevel.map (fun d => d._id)).Nodup →
        lookupOnHand (record_inventory_txn s t).2 t.product_sku t.warehouse_code =
          some (lvl.data.on_hand + t.quantity)
        ∧ (t.quantity < 0 → lvl.data.on_hand + t.quantity < lvl.data.on_hand)
        ∧ (0 < t.quantity → lvl.data.on_hand < lvl.data.on_hand + t.quantity)) := by
  refine ⟨by rw [record_ok s t hdb], signedChange_tin q, signedChange_tout q,
    signedChange_tadjustment q, signedChange_ttransfer q, ?_⟩
  intro lvl htype hfind hids
  refine ⟨?_, fun hneg => by linarith, fun hpos => by linarith⟩
  have h := lookupOnHand_record_found s t lvl hdb hfind hids
  rwa [htype, signedChange_tadjustment] at h

/-- Witness for C2 at a concrete store holding one stocklevel for the pair
and a negative adjustment payload. -/
theorem C2_applied_change_witness :
    ({ emptyStore with
        stocklevel := [{ _id := 0, data :=
          { product_sku := "SKU-1", warehouse_code := "WH-1", on_hand := 4,
            reserved := 0, created_at := 0, updated_at := 0 } }],
        nextId := 1 } : Store).dbConfigured = true
    ∧ (record_inventory_txn
        { emptyStore with
            stocklevel := [{ _id := 0, data :=
              { product_sku := "SKU-1", warehouse_code := "WH-1", on_hand := 4,
                reserved := 0, created_at := 0, updated_at := 0 } }],
            nextId := 1 }
        { type := TxnType.tadjustment, product_sku := "SKU-1", quantity := -3,
          warehouse_code := "WH-1", reference := none, notes := none }).1 =
      Except.ok { id := 1, applied_change := signedChange TxnType.tadjustment (-3) } :=
  ⟨by rfl,
   (C2_applied_change
     { emptyStore with
         stocklevel := [{ _id := 0, data :=
           { product_sku := "SKU-1", warehouse_code := "WH-1", on_hand := 4,
             reserved := 0, created_at := 0, updated_at := 0 } }],
         nextId := 1 }
     { type := TxnType.tadjustment, product_sku := "SKU-1", quantity := -3,
       warehouse_code := "WH-1", reference := none, notes := none }
     (-3) (by rfl)).1⟩

/-- An `in` transaction payload used by concrete instances. -/
def sampleIn : InventoryTransaction :=
  { type := TxnType.tin, product_sku := "SKU-1", quantity := 100,
    warehouse_code := "WH-1", reference := none, notes := none }

/-- An `out` transaction payload used by concrete instances. -/
def sampleOut : InventoryTransaction :=
  { type := TxnType.tout, product_sku := "SKU-1", quantity := 30,
    warehouse_code := "WH-1", reference := none, notes := none }

/-- A `transfer` transaction payload used by concrete instances. -/
def sampleTransfer : InventoryTransaction :=
  { type := TxnType.ttransfer, product_sku := "SKU-1", quantity := 7,
    warehouse_code := "WH-1", reference := none, notes := none }

/-- A store holding a single stocklevel document for ("SKU-1", "WH-1"). -/
def oneStockStore : Store :=
  { emptyStore with
      stocklevel := [{ _id := 0, data :=
        { product_sku := "SKU-1", warehouse_code := "WH-1", on_hand := 4,
          reserved := 0, created_at := 0, updated_at := 0 } }],
      nextId := 1 }

/-- C5: a schema-valid inventory transaction is always recorded: the endpoint
answers ok and appends the transaction document, with no insufficient-stock
check anywhere; concretely, an `out` of 30 against a pair with no stock at all
still succeeds and drives on_hand to -30. -/
theorem C5_no_stock_rejection (s : Store) (t : InventoryTransaction)
    (hdb : s.dbConfigured = true) :
    (∃ resp s2, record_inventory_txn s t = (Except.ok resp, s2) ∧
      s2.inventorytransaction =
        s.inventorytransaction ++ [{ _id := s.nextId, data := t }])
    ∧ lookupOnHand (record_inventory_txn emptyStore sampleOut).2 "SKU-1" "WH-1" =
        some (-(30 : ℚ)) := by
  constructor
  · refine ⟨_, _, record_ok s t hdb, ?_⟩
    rw [applyStockUpdate_txns]
  · rfl

/-- Witness for C5: the always-recorded conclusion at the empty store. -/
theorem C5_no_stock_rejection_witness :
    emptyStore.dbConfigured = true
    ∧ (∃ resp s2, record_inventory_txn emptyStore sampleOut = (Except.ok resp, s2) ∧
        s2.inventorytransaction =
          emptyStore.inventorytransaction ++ [{ _id := emptyStore.nextId, data := sampleOut }]) :=
  ⟨by rfl, (C5_no_stock_rejection emptyStore sampleOut (by rfl)).1⟩

/-- The successful unfolding of GET /dashboard. -/
theorem dashboard_ok (s : Store) (hdb : s.dbConfigured = true) :
    dashboard_summary s =
      (Except.ok
        { totals :=
            { products := s.product.length, customers := s.customer.length,
              suppliers := s.supplier.length,
              open_sales_orders := (s.salesorder.filter openStatus).length,
              invoices := s.invoice.length, payments := s.payment.length,
              stock_items := s.stocklevel.length },
          low_stock := tagDocs ((s.stocklevel.filter
            (fun d => decide (d.data.on_hand ≤ 0))).take 10) }, s) := by
  unfold dashboard_summary ensure_db
  simp [hdb]

/-- C6: the dashboard low_stock list has at most 10 entries, every entry has
on_hand ≤ 0, and every entry is a stored stocklevel document tagged
with its string id. -/
theorem C6_low_stock (s : Store) (hdb : s.dbConfigured = true) :
    ∃ resp, (dashboard_summary s).1 = Except.ok resp ∧
      resp.low_stock.length ≤ 10 ∧
      ∀ e ∈ resp.low_stock,
        e.data.on_hand ≤ 0 ∧ ∃ d ∈ s.stocklevel, e.data = d.data ∧ e.id = toString d._id := by
  rw [dashboard_ok s hdb]
  refine ⟨_, rfl, ?_, ?_⟩
  · calc (tagDocs ((s.stocklevel.filter
        (fun d => decide (d.data.on_hand ≤ 0))).take 10)).length
        = ((s.stocklevel.filter (fun d => decide (d.data.on_hand ≤ 0))).take 10).length := by
          unfold tagDocs; rw [List.length_map]
      _ ≤ 10 := List.length_take_le 10 _
  · intro e he
    unfold tagDocs at he
    obtain ⟨d, hd, rfl⟩ := List.mem_map.mp he
    have hdfilter : d ∈ s.stocklevel.filter (fun d => decide (d.data.on_hand ≤ 0)) :=
      List.take_subset 10 _ hd
    have hmem := List.mem_filter.mp hdfilter
    refine ⟨by simpa using hmem.2, d, hmem.1, rfl, rfl⟩

/-- Witness for C6 at a store whose only stocklevel is at zero. -/
theorem C6_low_stock_witness :
    (record_inventory_txn emptyStore sampleTransfer).2.dbConfigured = true
    ∧ ∃ resp,
        (dashboard_summary (record_inventory_txn emptyStore sampleTransfer).2).1 =
          Except.ok resp ∧
        resp.low_stock.length ≤ 10 ∧
        ∀ e ∈ resp.low_stock,
          e.data.on_hand ≤ 0 ∧
          ∃ d ∈ (record_inventory_txn emptyStore sampleTransfer).2.stocklevel,
            e.data = d.data ∧ e.id = toString d._id :=
  ⟨by rfl, C6_low_stock (record_inventory_txn emptyStore sampleTransfer).2 (by rfl)⟩

/-- Check that the Mongo status filter of the dashboard agrees with membership
of the status in the draft/confirmed pair. -/
theorem openStatus_iff (d : Doc SalesOrder) :
    openStatus d =
      decide (d.data.status = SOStatus.draft ∨ d.data.status = SOStatus.confirmed) := by
  cases h : d.data.status <;> simp [openStatus, SOStatus.str, h]

/-- C7: each dashboard total is the document count of its collection, and
open_sales_orders counts exactly the sales orders whose status is draft or
confirmed. -/
theorem C7_dashboard_totals (s : Store) (hdb : s.dbConfigured = true) :
    ∃ resp, (dashboard_summary s).1 = Except.ok resp ∧
      resp.totals.products = s.product.length ∧
      resp.totals.customers = s.customer.length ∧
      resp.totals.suppliers = s.supplier.length ∧
      resp.totals.invoices = s.invoice.length ∧
      resp.totals.payments = s.payment.length ∧
      resp.totals.stock_items = s.stocklevel.length ∧
      resp.totals.open_sales_orders =
        (s.salesorder.filter (fun d =>
          decide (d.data.status = SOStatus.draft ∨ d.data.status = SOStatus.confirmed))).length := by
  rw [dashboard_ok s hdb]
  refine ⟨_, rfl, rfl, rfl, rfl, rfl, rfl, rfl, ?_⟩
  simp only
  rw [List.filter_congr (fun d _ => openStatus_iff d)]

/-- Witness for C7 at the empty store. -/
theorem C7_dashboard_totals_witness :
    emptyStore.dbConfigured = true
    ∧ ∃ resp, (dashboard_summary emptyStore).1 = Except.ok resp ∧
        resp.totals.products = emptyStore.product.length ∧
        resp.totals.customers = emptyStore.customer.length ∧
        resp.totals.suppliers = emptyStore.supplier.length ∧
        resp.totals.invoices = emptyStore.invoice.length ∧
        resp.totals.payments = emptyStore.payment.length ∧
        resp.totals.stock_items = emptyStore.stocklevel.length ∧
        resp.totals.open_sales_orders =
          (emptyStore.salesorder.filter (fun d =>
            decide (d.data.status = SOStatus.draft ∨ d.data.status = SOStatus.confirmed))).length :=
  ⟨by rfl, C7_dashboard_totals emptyStore (by rfl)⟩

/-- A sample Product payload. -/
def sampleProduct : Product :=
  { sku := "SKU-1", name := "Widget", description := none, uom := "unit",
    price := 10, cost := 5, tax_code := none, is_active := true }

/-- A sample Customer payload. -/
def sampleCustomer : Customer :=
  { name := "ACME", email := none, phone := none, billing_address := none,
    shipping_address := none, tax_id := none, credit_limit := 0, is_active := true }

/-- A sample Supplier payload. -/
def sampleSupplier : Supplier :=
  { name := "SupCo", email := none, phone := none, address := none,
    tax_id := none, is_active := true }

/-- A sample Tax payload. -/
def sampleTax : Tax :=
  { name := "VAT", rate := 5, type := TaxKind.vat,
    is_inclusive := false, is_active := true }

/-- A sample Warehouse payload. -/
def sampleWarehouse : Warehouse :=
  { name := "Main", code := "WH-1", address := none, is_active := true }

/-- A sample SalesOrder payload. -/
def sampleOrder : SalesOrder :=
  { number := "SO-1", customer_id := "c1", order_date := 0, currency := "USD",
    items := [{ product_sku := "SKU-1", quantity := 2, price := 10, tax_rate := 0 }],
    notes := none, status := SOStatus.draft }

/-- A sample Invoice payload. -/
def sampleInvoice : Invoice :=
  { number := "INV-1", type := InvoiceKind.sales, partner_id := "c1",
    invoice_date := 0, currency := "USD",
    lines := [{ product_sku := "SKU-1", description := none, quantity := 2,
                unit_price := 10, tax_rate := 0 }],
    status := InvoiceStatus.draft }

/-- A sample Payment payload. -/
def samplePayment : Payment :=
  { number := "PAY-1", type := PaymentKind.inbound, partner_id := "c1",
    date := 0, currency := "USD", amount := 20, method := "cash", reference := none }

/-- The empty store with the database handle missing. -/
def noDbStore : Store :=
  { emptyStore with dbConfigured := false }

/-- C9: when the store is not configured, every endpoint that touches the
document store fails with the 500 "Database not configured" error and leaves
the store untouched, uniformly across all create and list endpoints, the
customers, suppliers and taxes creates included. -/
theorem C9_db_not_configured (s : Store) (p : Product) (c : Customer)
    (su : Supplier) (tx : Tax) (w : Warehouse) (t : InventoryTransaction)
    (o : SalesOrder) (v : Invoice) (pm : Payment)
    (hdb : s.dbConfigured = false) :
    create_product s p = (Except.error { status := 500, detail := "Database not configured" }, s)
    ∧ list_products s = (Except.error { status := 500, detail := "Database not configured" }, s)
    ∧ create_customer s c = (Except.error { status := 500, detail := "Database not configured" }, s)
    ∧ list_customers s = (Except.error { status := 500, detail := "Database not configured" }, s)
    ∧ create_supplier s su = (Except.error { status := 500, detail := "Database not configured" }, s)
    ∧ list_suppliers s = (Except.error { status := 500, detail := "Database not configured" }, s)
    ∧ create_tax s tx = (Except.error { status := 500, detail := "Database not configured" }, s)
    ∧ list_taxes s = (Except.error { status := 500, detail := "Database not configured" }, s)
    ∧ create_warehouse s w = (Except.error { status := 500, detail := "Database not configured" }, s)
    ∧ list_warehouses s = (Except.error { status := 500, detail := "Database not configured" }, s)
    ∧ record_inventory_txn s t = (Except.error { status := 500, detail := "Database not configured" }, s)
    ∧ list_stock_levels s = (Except.error { status := 500, detail := "Database not configured" }, s)
    ∧ create_sales_order s o = (Except.error { status := 500, detail := "Database not configured" }, s)
    ∧ list_sales_orders s = (Except.error { status := 500, detail := "Database not configured" }, s)
    ∧ create_invoice s v = (Except.error { status := 500, detail := "Database not configured" }, s)
    ∧ list_invoices s = (Except.error { status := 500, detail := "Database not configured" }, s)
    ∧ create_payment s pm = (Except.error { status := 500, detail := "Database not configured" }, s)
    ∧ list_payments s = (Except.error { status := 500, detail := "Database not configured" }, s)
    ∧ dashboard_summary s = (Except.error { status := 500, detail := "Database not configured" }, s) := by
  refine ⟨?_, ?_, ?_, ?_, ?_, ?_, ?_, ?_, ?_, ?_, ?_, ?_, ?_, ?_, ?_, ?_, ?_, ?_, ?_⟩ <;>
    simp [create_product, list_products, create_customer, list_customers,
      create_supplier, list_suppliers, create_tax, list_taxes,
      create_warehouse, list_warehouses, record_inventory_txn, list_stock_levels,
      create_sales_order, list_sales_orders, create_invoice, list_invoices,
      create_payment, list_payments, dashboard_summary,
      ensure_db, create_document, get_documents, dbError, hdb]

/-- Witness for C9 at the unconfigured empty store. -/
theorem C9_db_not_configured_witness :
    noDbStore.dbConfigured = false
    ∧ create_customer noDbStore sampleCustomer =
        (Except.error { status := 500, detail := "Database not configured" }, noDbStore)
    ∧ create_supplier noDbStore sampleSupplier =
        (Except.error { status := 500, detail := "Database not configured" }, noDbStore)
    ∧ create_tax noDbStore sampleTax =
        (Except.error { status := 500, detail := "Database not configured" }, noDbStore) :=
  ⟨by rfl,
   (C9_db_not_configured noDbStore sampleProduct sampleCustomer sampleSupplier
     sampleTax sampleWarehouse sampleIn sampleOrder sampleInvoice samplePayment
     (by rfl)).2.2.1,
   (C9_db_not_configured noDbStore sampleProduct sampleCustomer sampleSupplier
     sampleTax sampleWarehouse sampleIn sampleOrder sampleInvoice samplePayment
     (by rfl)).2.2.2.2.1,
   (C9_db_not_configured noDbStore sampleProduct sampleCustomer sampleSupplier
     sampleTax sampleWarehouse sampleIn sampleOrder sampleInvoice samplePayment
     (by rfl)).2.2.2.2.2.2.1⟩

/-- C4: a create against an already-taken business key (Product.sku,
Warehouse.code, SalesOrder.number, Invoice.number, Payment.number) is rejected
with a 400 client error and the store is left exactly as it was, so no second
document appears. -/
theorem C4_business_key_conflict (s : Store) (p : Product) (w : Warehouse)
    (o : SalesOrder) (v : Invoice) (pm : Payment)
    (hdb : s.dbConfigured = true) :
    ((s.product.find? (fun d => d.data.sku == p.sku)).isSome = true →
       create_product s p =
         (Except.error { status := 400, detail := "SKU already exists" }, s))
    ∧ ((s.warehouse.find? (fun d => d.data.code == w.code)).isSome = true →
       create_warehouse s w =
         (Except.error { status := 400, detail := "Warehouse code already exists" }, s))
    ∧ ((s.salesorder.find? (fun d => d.data.number == o.number)).isSome = true →
       create_sales_order s o =
         (Except.error { status := 400, detail := "Order number already exists" }, s))
    ∧ ((s.invoice.find? (fun d => d.data.number == v.number)).isSome = true →
       create_invoice s v =
         (Except.error { status := 400, detail := "Invoice number already exists" }, s))
    ∧ ((s.payment.find? (fun d => d.data.number == pm.number)).isSome = true →
       create_payment s pm =
         (Except.error { status := 400, detail := "Payment number already exists" }, s)) := by
  refine ⟨fun h => ?_, fun h => ?_, fun h => ?_, fun h => ?_, fun h => ?_⟩ <;>
    simp [create_product, create_warehouse, create_sales_order, create_invoice,
      create_payment, ensure_db, hdb, h]

/-- A store already holding one document in each keyed collection, with the
same business keys as the sample payloads. -/
def dupStore : Store :=
  { emptyStore with
      product := [{ _id := 0, data := sampleProduct }],
      warehouse := [{ _id := 1, data := sampleWarehouse }],
      salesorder := [{ _id := 2, data := sampleOrder }],
      invoice := [{ _id := 3, data := sampleInvoice }],
      payment := [{ _id := 4, data := samplePayment }],
      nextId := 5 }

/-- Witness for C4: duplicate creates against dupStore are all rejected. -/
theorem C4_business_key_conflict_witness :
    (dupStore.product.find? (fun d => d.data.sku == sampleProduct.sku)).isSome = true
    ∧ create_product dupStore sampleProduct =
        (Except.error { status := 400, detail := "SKU already exists" }, dupStore)
    ∧ create_payment dupStore samplePayment =
        (Except.error { status := 400, detail := "Payment number already exists" }, dupStore) :=
  ⟨by rfl,
   (C4_business_key_conflict dupStore sampleProduct sampleWarehouse sampleOrder
     sampleInvoice samplePayment (by rfl)).1 (by rfl),
   (C4_business_key_conflict dupStore sampleProduct sampleWarehouse sampleOrder
     sampleInvoice samplePayment (by rfl)).2.2.2.2 (by rfl)⟩

/-- The successful unfolding of GET /products. -/
theorem list_products_ok (s : Store) (hdb : s.dbConfigured = true) :
    list_products s = (Except.ok (tagDocs s.product), s) := by
  unfold list_products get_documents
  simp [hdb]

/-- C8: creating a product with a fresh sku succeeds, echoes the id with the
payload fields, and the sku then shows up in the id-tagged product listing. -/
theorem C8_create_then_list (s : Store) (p : Product)
    (hdb : s.dbConfigured = true)
    (hfresh : s.product.find? (fun d => d.data.sku == p.sku) = none) :
    (create_product s p).1 = Except.ok (s.nextId, p)
    ∧ ∃ l, (list_products (create_product s p).2).1 = Except.ok l ∧
        ∃ e ∈ l, e.data = p ∧ e.data.sku = p.sku ∧ e.id = toString s.nextId := by
  have hcp : create_product s p =
      (Except.ok (s.nextId, p),
       { s with product := s.product ++ [{ _id := s.nextId, data := p }],
                nextId := s.nextId + 1 }) := by
    unfold create_product ensure_db create_document
    simp [hdb, hfresh]
  have h2 : (create_product s p).2 =
      { s with product := s.product ++ [{ _id := s.nextId, data := p }],
               nextId := s.nextId + 1 } := by
    rw [hcp]
  refine ⟨by rw [hcp], ?_⟩
  rw [h2, list_products_ok
    { s with product := s.product ++ [{ _id := s.nextId, data := p }],
             nextId := s.nextId + 1 } hdb]
  refine ⟨_, rfl, { id := toString s.nextId, data := p }, ?_, rfl, rfl, rfl⟩
  exact List.mem_map.mpr
    ⟨{ _id := s.nextId, data := p },
     List.mem_append_right _ (List.mem_singleton.mpr rfl), rfl⟩

/-- Witness for C8 at the empty store. -/
theorem C8_create_then_list_witness :
    emptyStore.dbConfigured = true
    ∧ emptyStore.product.find? (fun d => d.data.sku == sampleProduct.sku) = none
    ∧ ((create_product emptyStore sampleProduct).1 =
        Except.ok (emptyStore.nextId, sampleProduct)
      ∧ ∃ l, (list_products (create_product emptyStore sampleProduct).2).1 =
          Except.ok l ∧
          ∃ e ∈ l, e.data = sampleProduct ∧ e.data.sku = sampleProduct.sku ∧
            e.id = toString emptyStore.nextId) :=
  ⟨by rfl, by rfl, C8_create_then_list emptyStore sampleProduct (by rfl) (by rfl)⟩

/-- The full store state after recording a transaction whose pair had no
stocklevel yet: the transaction document and a fresh stocklevel are appended
and two identifiers were consumed. -/
theorem record_none_state (s : Store) (t : InventoryTransaction)
    (hdb : s.dbConfigured = true)
    (hfind : s.stocklevel.find? (stockMatch t) = none) :
    (record_inventory_txn s t).2 =
      { s with
          inventorytransaction :=
            s.inventorytransaction ++ [{ _id := s.nextId, data := t }],
          stocklevel := s.stocklevel ++
            [{ _id := s.nextId + 1, data :=
                { product_sku := t.product_sku, warehouse_code := t.warehouse_code,
                  on_hand := signedChange t.type t.quantity, reserved := 0,
                  created_at := s.now, updated_at := s.now } }],
          nextId := s.nextId + 1 + 1 } := by
  rw [record_ok s t hdb]
  simp only [applyStockUpdate, hfind]

/-- record_none_state specialized to a transaction literal, with the
projections reduced. -/
theorem record_none_state_lit (s : Store) (ty : TxnType) (sku wh : String) (q : ℚ)
    (hdb : s.dbConfigured = true)
    (hfind : s.stocklevel.find? (pairMatch sku wh) = none) :
    (record_inventory_txn s
      { type := ty, product_sku := sku, quantity := q, warehouse_code := wh,
        reference := none, notes := none }).2 =
      { s with
          inventorytransaction := s.inventorytransaction ++
            [{ _id := s.nextId, data :=
                { type := ty, product_sku := sku, quantity := q,
                  warehouse_code := wh, reference := none, notes := none } }],
          stocklevel := s.stocklevel ++
            [{ _id := s.nextId + 1, data :=
                { product_sku := sku, warehouse_code := wh,
                  on_hand := signedChange ty q, reserved := 0,
                  created_at := s.now, updated_at := s.now } }],
          nextId := s.nextId + 1 + 1 } :=
  record_none_state s
    { type := ty, product_sku := sku, quantity := q, warehouse_code := wh,
      reference := none, notes := none } hdb hfind

/-- lookupOnHand after a found-case record, specialized to a transaction
literal. -/
theorem lookup_record_found_lit (s : Store) (ty : TxnType) (sku wh : String)
    (q : ℚ) (lvl : Doc StockLevelDoc)
    (hdb : s.dbConfigured = true)
    (hfind : s.stocklevel.find? (pairMatch sku wh) = some lvl)
    (hids : (s.stocklevel.map (fun d => d._id)).Nodup) :
    lookupOnHand (record_inventory_txn s
      { type := ty, product_sku := sku, quantity := q, warehouse_code := wh,
        reference := none, notes := none }).2 sku wh =
      some (lvl.data.on_hand + signedChange ty q) :=
  lookupOnHand_record_found s
    { type := ty, product_sku := sku, quantity := q, warehouse_code := wh,
      reference := none, notes := none } lvl hdb hfind hids

/-- C1: recording a transaction with signed change c updates the stocklevel of
its (product_sku, warehouse_code) pair in place — on_hand becomes the old
value plus c and updated_at is refreshed to the request clock — when such a
document exists, and otherwise inserts a fresh stocklevel with on_hand = c and
reserved = 0; consequently, starting from a pair with no stocklevel, an `in`
of Q leaves on_hand = Q and a following `out` of R leaves on_hand = Q - R. -/
theorem C1_stock_level_upsert (s : Store) (t : InventoryTransaction)
    (hdb : s.dbConfigured = true)
    (hids : (s.stocklevel.map (fun d => d._id)).Nodup) :
    (∀ lvl, s.stocklevel.find? (stockMatch t) = some lvl →
       (record_inventory_txn s t).2.stocklevel.find? (stockMatch t) =
         some { _id := lvl._id, data :=
           { lvl.data with
               on_hand := lvl.data.on_hand + signedChange t.type t.quantity,
               updated_at := s.now } })
    ∧ (s.stocklevel.find? (stockMatch t) = none →
       (record_inventory_txn s t).2.stocklevel =
         s.stocklevel ++ [{ _id := s.nextId + 1, data :=
           { product_sku := t.product_sku, warehouse_code := t.warehouse_code,
             on_hand := signedChange t.type t.quantity, reserved := 0,
             created_at := s.now, updated_at := s.now } }])
    ∧ (∀ (Q R : ℚ) (sku wh : String),
        s.stocklevel.find? (pairMatch sku wh) = none →
        (∀ d ∈ s.stocklevel, d._id < s.nextId) →
        lookupOnHand (record_inventory_txn s
          { type := TxnType.tin, product_sku := sku, quantity := Q,
            warehouse_code := wh, reference := none, notes := none }).2 sku wh = some Q
        ∧ lookupOnHand (record_inventory_txn
            (record_inventory_txn s
              { type := TxnType.tin, product_sku := sku, quantity := Q,
                warehouse_code := wh, reference := none, notes := none }).2
            { type := TxnType.tout, product_sku := sku, quantity := R,
              warehouse_code := wh, reference := none, notes := none }).2 sku wh
          = some (Q - R)) := by
  refine ⟨?_, ?_, ?_⟩
  · intro lvl hfind
    rw [record_ok s t hdb]
    exact applyStockUpdate_found _ t _ lvl hfind hids
  · intro hfind
    rw [record_none_state s t hdb hfind]
  · intro Q R sku wh hfind hbound
    have hS2 := record_none_state_lit s TxnType.tin sku wh Q hdb hfind
    have happ : (s.stocklevel ++
        [({ _id := s.nextId + 1, data :=
            { product_sku := sku, warehouse_code := wh,
              on_hand := signedChange TxnType.tin Q, reserved := 0,
              created_at := s.now, updated_at := s.now } } : Doc StockLevelDoc)]).find? (pairMatch sku wh) =
        some { _id := s.nextId + 1, data :=
            { product_sku := sku, warehouse_code := wh,
              on_hand := signedChange TxnType.tin Q, reserved := 0,
              created_at := s.now, updated_at := s.now } } := by
      rw [find?_append_none _ _ _ hfind]
      simp [List.find?_cons, pairMatch]
    have hids2 : ((s.stocklevel ++
        [({ _id := s.nextId + 1, data :=
            { product_sku := sku, warehouse_code := wh,
              on_hand := signedChange TxnType.tin Q, reserved := 0,
              created_at := s.now, updated_at := s.now } } : Doc StockLevelDoc)]).map (fun d => d._id)).Nodup := by
      rw [List.map_append, List.nodup_append]
      refine ⟨hids, List.nodup_singleton _, ?_⟩
      intro a ha hb
      simp only [List.map_cons, List.map_nil, List.mem_singleton] at hb
      subst hb
      obtain ⟨d, hd, hdid⟩ := List.mem_map.mp ha
      have hlt := hbound d hd
      omega
    constructor
    · rw [hS2]
      show ((s.stocklevel ++
        [({ _id := s.nextId + 1, data :=
            { product_sku := sku, warehouse_code := wh,
              on_hand := signedChange TxnType.tin Q, reserved := 0,
              created_at := s.now, updated_at := s.now } } : Doc StockLevelDoc)]).find?
          (pairMatch sku wh)).map (fun d => d.data.on_hand) = some Q
      rw [happ]
      simp [signedChange_tin]
    · have hdb2 : (record_inventory_txn s
          { type := TxnType.tin, product_sku := sku, quantity := Q,
            warehouse_code := wh, reference := none, notes := none }).2.dbConfigured
          = true := by
        rw [hS2]
        exact hdb
      have hfind2 : (record_inventory_txn s
          { type := TxnType.tin, product_sku := sku, quantity := Q,
            warehouse_code := wh, reference := none, notes := none }).2.stocklevel.find?
            (pairMatch sku wh) =
          some { _id := s.nextId + 1, data :=
            { product_sku := sku, warehouse_code := wh,
              on_hand := signedChange TxnType.tin Q, reserved := 0,
              created_at := s.now, updated_at := s.now } } := by
        rw [hS2]
        exact happ
      have hids2h : ((record_inventory_txn s
          { type := TxnType.tin, product_sku := sku, quantity := Q,
            warehouse_code := wh, reference := none, notes := none }).2.stocklevel.map
            (fun d => d._id)).Nodup := by
        rw [hS2]
        exact hids2
      have h2 := lookup_record_found_lit
        (record_inventory_txn s
          { type := TxnType.tin, product_sku := sku, quantity := Q,
            warehouse_code := wh, reference := none, notes := none }).2
        TxnType.tout sku wh R _ hdb2 hfind2 hids2h
      rw [h2]
      simp [signedChange_tin, signedChange_tout, sub_eq_add_neg]

/-- Witness for C1: the Q = 100, R = 30 run from the empty store. -/
theorem C1_stock_level_upsert_witness :
    emptyStore.dbConfigured = true
    ∧ (emptyStore.stocklevel.map (fun d => d._id)).Nodup
    ∧ emptyStore.stocklevel.find? (pairMatch "SKU-1" "WH-1") = none
    ∧ (∀ d ∈ emptyStore.stocklevel, d._id < emptyStore.nextId)
    ∧ (lookupOnHand (record_inventory_txn emptyStore
          { type := TxnType.tin, product_sku := "SKU-1", quantity := 100,
            warehouse_code := "WH-1", reference := none, notes := none }).2
          "SKU-1" "WH-1" = some 100
      ∧ lookupOnHand (record_inventory_txn
          (record_inventory_txn emptyStore
            { type := TxnType.tin, product_sku := "SKU-1", quantity := 100,
              warehouse_code := "WH-1", reference := none, notes := none }).2
          { type := TxnType.tout, product_sku := "SKU-1", quantity := 30,
            warehouse_code := "WH-1", reference := none, notes := none }).2
          "SKU-1" "WH-1" = some (100 - 30)) :=
  ⟨by rfl, by simp [emptyStore], by rfl, by simp [emptyStore],
   (C1_stock_level_upsert emptyStore
     { type := TxnType.tin, product_sku := "SKU-1", quantity := 100,
       warehouse_code := "WH-1", reference := none, notes := none }
     (by rfl) (by simp [emptyStore])).2.2 100 30 "SKU-1" "WH-1"
     (by rfl) (by simp [emptyStore])⟩

/-- C3 counterexample: a transfer against a pair with no stocklevel does
report applied_change = 0, but it does not leave the stocklevel collection
unchanged — it inserts a brand-new zero stocklevel document. -/
theorem C3_counterexample :
    sampleTransfer.type = TxnType.ttransfer
    ∧ (record_inventory_txn emptyStore sampleTransfer).1 =
        Except.ok { id := 0, applied_change := 0 }
    ∧ emptyStore.stocklevel = []
    ∧ (record_inventory_txn emptyStore sampleTransfer).2.stocklevel =
        [{ _id := 1, data :=
          { product_sku := "SKU-1", warehouse_code := "WH-1", on_hand := 0,
            reserved := 0, created_at := 0, updated_at := 0 } }] :=
  ⟨rfl, rfl, rfl, rfl⟩

/-- C3 amended: a transfer reports applied_change = 0 and never changes any
on_hand value, but it does write to the stocklevel collection: an existing
document for the pair gets its updated_at refreshed (all other fields kept),
and when no document exists a fresh stocklevel with on_hand = 0, reserved = 0
is inserted. -/
theorem C3_transfer_amended (s : Store) (t : InventoryTransaction)
    (hdb : s.dbConfigured = true) (htype : t.type = TxnType.ttransfer)
    (hids : (s.stocklevel.map (fun d => d._id)).Nodup) :
    (record_inventory_txn s t).1 = Except.ok { id := s.nextId, applied_change := 0 }
    ∧ (∀ lvl, s.stocklevel.find? (stockMatch t) = some lvl →
        (record_inventory_txn s t).2.stocklevel.find? (stockMatch t) =
          some { _id := lvl._id, data := { lvl.data with updated_at := s.now } }
        ∧ (record_inventory_txn s t).2.stocklevel.map (fun d => d.data.on_hand) =
            s.stocklevel.map (fun d => d.data.on_hand))
    ∧ (s.stocklevel.find? (stockMatch t) = none →
        (record_inventory_txn s t).2.stocklevel =
          s.stocklevel ++ [{ _id := s.nextId + 1, data :=
            { product_sku := t.product_sku, warehouse_code := t.warehouse_code,
              on_hand := 0, reserved := 0,
              created_at := s.now, updated_at := s.now } }]) := by
  refine ⟨?_, ?_, ?_⟩
  · rw [record_ok s t hdb]
    simp [htype, signedChange_ttransfer]
  · intro lvl hfind
    constructor
    · rw [record_ok s t hdb, htype, signedChange_ttransfer]
      have h := applyStockUpdate_found
        { s with
            inventorytransaction :=
              s.inventorytransaction ++ [{ _id := s.nextId, data := t }],
            nextId := s.nextId + 1 }
        t 0 lvl hfind hids
      rw [add_zero] at h
      exact h
    · rw [record_ok s t hdb]
      exact applyStockUpdate_found_map
        { s with
            inventorytransaction :=
              s.inventorytransaction ++ [{ _id := s.nextId, data := t }],
            nextId := s.nextId + 1 }
        t (signedChange t.type t.quantity) lvl (fun d => d.data.on_hand) hfind hids
        (by rw [htype, signedChange_ttransfer]; simp)
  · intro hfind
    rw [record_none_state s t hdb hfind, htype]
    simp [signedChange_ttransfer]

/-- Witness for the amended C3 at a store with one stocklevel for the pair. -/
theorem C3_transfer_amended_witness :
    oneStockStore.dbConfigured = true
    ∧ sampleTransfer.type = TxnType.ttransfer
    ∧ (oneStockStore.stocklevel.map (fun d => d._id)).Nodup
    ∧ (record_inventory_txn oneStockStore sampleTransfer).1 =
        Except.ok { id := 1, applied_change := 0 } :=
  ⟨by rfl, by rfl, by simp [oneStockStore, emptyStore],
   (C3_transfer_amended oneStockStore sampleTransfer (by rfl) (by rfl)
     (by simp [oneStockStore, emptyStore])).1⟩

/-- A type `in` payload with a negative quantity. -/
def negativeIn : InventoryTransaction :=
  { type := TxnType.tin, product_sku := "SKU-1", quantity := -3,
    warehouse_code := "WH-1", reference := none, notes := none }

/-- C10: the InventoryTransaction schema puts no sign or bound constraint on
quantity; an `in` with negative quantity is accepted, reports the negative
applied_change and lowers on_hand, while an `out` with negative quantity is
accepted and raises on_hand. -/
theorem C10_quantity_unconstrained (s : Store) (t : InventoryTransaction)
    (hdb : s.dbConfigured = true) (hq : t.quantity < 0)
    (hids : (s.stocklevel.map (fun d => d._id)).Nodup) :
    InventoryTransaction.fieldConstraintsOk t = true
    ∧ (t.type = TxnType.tin →
        (record_inventory_txn s t).1 =
          Except.ok { id := s.nextId, applied_change := t.quantity }
        ∧ ∀ lvl, s.stocklevel.find? (stockMatch t) = some lvl →
            lookupOnHand (record_inventory_txn s t).2 t.product_sku t.warehouse_code =
              some (lvl.data.on_hand + t.quantity)
            ∧ lvl.data.on_hand + t.quantity < lvl.data.on_hand)
    ∧ (t.type = TxnType.tout →
        (record_inventory_txn s t).1 =
          Except.ok { id := s.nextId, applied_change := -t.quantity }
        ∧ ∀ lvl, s.stocklevel.find? (stockMatch t) = some lvl →
            lookupOnHand (record_inventory_txn s t).2 t.product_sku t.warehouse_code =
              some (lvl.data.on_hand + -t.quantity)
            ∧ lvl.data.on_hand < lvl.data.on_hand + -t.quantity) := by
  refine ⟨rfl, fun htin => ⟨?_, ?_⟩, fun htout => ⟨?_, ?_⟩⟩
  · rw [record_ok s t hdb]
    simp [htin, signedChange_tin]
  · intro lvl hfind
    have h := lookupOnHand_record_found s t lvl hdb hfind hids
    rw [htin, signedChange_tin] at h
    exact ⟨h, by linarith⟩
  · rw [record_ok s t hdb]
    simp [htout, signedChange_tout]
  · intro lvl hfind
    have h := lookupOnHand_record_found s t lvl hdb hfind hids
    rw [htout, signedChange_tout] at h
    exact ⟨h, by linarith⟩

/-- Witness for C10: a negative `in` against a store with stock on hand. -/
theorem C10_quantity_unconstrained_witness :
    oneStockStore.dbConfigured = true
    ∧ negativeIn.quantity < 0
    ∧ (oneStockStore.stocklevel.map (fun d => d._id)).Nodup
    ∧ (record_inventory_txn oneStockStore negativeIn).1 =
        Except.ok { id := 1, applied_change := negativeIn.quantity } :=
  ⟨by rfl, by norm_num [negativeIn], by simp [oneStockStore, emptyStore],
   ((C10_quantity_unconstrained oneStockStore negativeIn (by rfl)
     (by norm_num [negativeIn]) (by simp [oneStockStore, emptyStore])).2.1 rfl).1⟩

end ERP
